import Mathlib

/-!
Verification development for the OnboardX repository: the risk-scoring
function, the format validators, the email/phone deliverability adapters and
the conversational onboarding state machine of the chat controller.

The embedding follows the source:
* `supabase/functions/onboardx-chat/index.ts` — `sigmoid`, `calculateRisk`,
  `validateEmail`, `validatePhone` (edge function);
* `src/unnamed/part_000` — second edge-function variant: same `calculateRisk`
  plus `validatePANFormat`;
* `src/components/ChatPage.tsx` — `generateAccountDetails`,
  `detectEmployment`, trigger-phrase tables, `streamMessage` trigger handling,
  `handleIncomeInput`, `handleEmailInput`, `handlePhoneInput`,
  `finalizeAccount`, and the `sendMessage` routing, modelled as a sequential
  event-step machine over the session state.

JavaScript numbers are embedded as rationals (all coefficients and inputs in
scope are exact decimals); the logistic `sigmoid` is embedded over the reals
with `Real.exp`.  JavaScript strings are embedded as `String`, with
character-level helpers for `toLowerCase`, `toUpperCase` and `includes`
because the corresponding kernel-reducible operations are needed for
evaluation.
-/

namespace OnboardX

/-- Character-level embedding of JavaScript `String.prototype.toLowerCase`
(ASCII case mapping, which is all the source relies on). -/
def lowerStr (s : String) : String := String.mk (s.data.map Char.toLower)

/-- Character-level embedding of JavaScript `String.prototype.toUpperCase`
(ASCII case mapping). -/
def upperStr (s : String) : String := String.mk (s.data.map Char.toUpper)

/-- Does `pat` occur as a contiguous substring of the character list?  This is
JavaScript `String.prototype.includes` at the character level. -/
def hasSub (pat : List Char) : List Char → Bool
  | [] => pat.isEmpty
  | c :: rest => pat.isPrefixOf (c :: rest) || hasSub pat rest

/-- JavaScript `hay.includes(pat)`. -/
def includesSub (hay pat : String) : Bool := hasSub pat.data hay.data

/-! ## Risk model (`calculateRisk` in both edge-function variants) -/

/-- The `level` union type of `RiskResult`. -/
inductive RiskLevel
  | Low
  | Medium
  | High
deriving DecidableEq, Repr

/-- Inputs of `calculateRisk` (the optional, unused `age` field is omitted). -/
structure RiskInputs where
  monthlyIncome : ℚ
  employmentType : String
  documentsVerified : Bool
  faceVerified : Bool

/-- `sigmoid(x) = 1 / (1 + e^(-x))` from the edge function. -/
noncomputable def sigmoid (x : ℝ) : ℝ := 1 / (1 + Real.exp (-x))

/-- Income factor of `calculateRisk`: higher income gives a lower score. -/
def incomeScore (m : ℚ) : ℚ :=
  if m > 80000 then -1.2
  else if m > 40000 then -0.5
  else if m > 20000 then 0.2
  else if m > 10000 then 0.8
  else 1.5

/-- Own properties of the `employmentScore` object literal: `none` means no
own property of that name (the bracket lookup then walks the prototype
chain, see `empScore`). -/
def employmentScore : String → Option ℚ
  | "salaried" => some (-0.8)
  | "business" => some 0.1
  | "freelancer" => some 0.6
  | "student" => some 1.2
  | _ => none

/-- Property names inherited from `Object.prototype`.  A bracket lookup on a
plain object literal resolves these when no own property matches; their
values are functions or objects, not numbers, and `?? 0.3` does not replace
them (it fires only on undefined/null).  The key used by the source is
lower-cased first, so only the all-lowercase names (`constructor`,
`__proto__`) are reachable, but the lookup itself is modelled for the full
set. -/
def objectProtoProps : List String :=
  ["constructor", "hasOwnProperty", "isPrototypeOf", "propertyIsEnumerable",
   "toLocaleString", "toString", "valueOf", "__proto__", "__defineGetter__",
   "__defineSetter__", "__lookupGetter__", "__lookupSetter__"]

/-- `employmentScore[inputs.employmentType.toLowerCase()] ?? 0.3`: `some` is
the numeric employment term (an own property, or the `0.3` default when the
lookup is undefined); `none` models a non-numeric inherited
`Object.prototype` value, which the `??` keeps and which poisons the
subsequent arithmetic (`z` becomes a string, the probability `NaN`). -/
def empScore (e : String) : Option ℚ :=
  match employmentScore (lowerStr e) with
  | some q => some q
  | none => if lowerStr e ∈ objectProtoProps then none else some 0.3

/-- Verification bonus: `(documentsVerified ? -0.4 : 0.3) + (faceVerified ? -0.3 : 0.2)`. -/
def verifyScore (d f : Bool) : ℚ :=
  (if d then -0.4 else 0.3) + (if f then -0.3 else 0.2)

/-- Estimated DTI.  Note the three equality tests are case-sensitive on the
raw `employmentType`, unlike the lower-cased `employmentScore` lookup. -/
def dti (i : RiskInputs) : ℚ :=
  if i.employmentType = "student" then 55
  else if i.employmentType = "freelancer" then 42
  else if i.employmentType = "business" then 35
  else max 10 (40 - i.monthlyIncome / 5000)

/-- The linear score `z = b0 + incomeScore + empScore + verifyScore` with
intercept `b0 = -1.5`.  When the employment term is a non-numeric inherited
value, the JavaScript `+` concatenates into a string; `none` models that
non-numeric `z`. -/
def zScore (i : RiskInputs) : Option ℚ :=
  (empScore i.employmentType).map (fun q =>
    -1.5 + incomeScore i.monthlyIncome + q
      + verifyScore i.documentsVerified i.faceVerified)

/-- `probability = sigmoid(z)`; `none` models the `NaN` produced when `z` is
the poisoned string (`Math.exp(-z)` coerces it to `NaN`). -/
noncomputable def probOf (i : RiskInputs) : Option ℝ :=
  (zScore i).map (fun z : ℚ => sigmoid ((z : ℝ)))

/-- `probability < 0.35 ? "Low" : probability < 0.65 ? "Medium" : "High"`
for a numeric probability. -/
noncomputable def riskLevel (p : ℝ) : RiskLevel :=
  if p < 0.35 then RiskLevel.Low
  else if p < 0.65 then RiskLevel.Medium
  else RiskLevel.High

/-- The same conditional on the possibly-`NaN` probability: both `NaN < 0.35`
and `NaN < 0.65` are false in JavaScript, so a `NaN` probability falls
through to `"High"`. -/
noncomputable def riskLevelJs : Option ℝ → RiskLevel
  | some p => riskLevel p
  | none => RiskLevel.High

/-- Result record of `calculateRisk`; `probability = none` models `NaN`.
The `explanation` string is a fixed sentence template over the rounded
probability, an income-band label, the employment type and the rounded DTI;
it is presentational (its numeric parts go through JavaScript float
formatting) and no claim concerns it, so it is not carried in the record. -/
structure RiskResult where
  probability : Option ℝ
  level : RiskLevel
  dti : ℚ

/-- `calculateRisk` from the edge function. -/
noncomputable def calculateRisk (i : RiskInputs) : RiskResult :=
  ⟨probOf i, riskLevelJs (probOf i), dti i⟩

/-! ## PAN format validator (`validatePANFormat` in `src/unnamed/part_000`) -/

/-- Verdict record `{ valid, reason }` returned by the validators. -/
structure Verdict where
  valid : Bool
  reason : String
deriving DecidableEq, Repr

/-- The test of `/^[A-Z]{3}[ABCFGHLJPT][A-Z]\d{4}[A-Z]$/`: exactly ten
characters of the stated classes. -/
def panRegexTest (s : String) : Bool :=
  match s.data with
  | [c0, c1, c2, c3, c4, c5, c6, c7, c8, c9] =>
    c0.isUpper && c1.isUpper && c2.isUpper &&
    ("ABCFGHLJPT".data.contains c3) && c4.isUpper &&
    c5.isDigit && c6.isDigit && c7.isDigit && c8.isDigit && c9.isUpper
  | _ => false

/-- `validatePANFormat`: the regex applied to the upper-cased input. -/
def validatePANFormat (pan : String) : Verdict :=
  if panRegexTest (upperStr pan) = false then
    ⟨false, "PAN \"" ++ pan ++ "\" has invalid format. Must be ABCDE1234F (5 letters, 4 digits, 1 letter). 4th letter must indicate holder type (P=Individual, C=Company, etc)."⟩
  else ⟨true, "PAN format is valid."⟩

/-! ## Edge-function email / phone deliverability adapters

The upstream AbstractAPI call is modelled by a `FetchResult`: `ok` carries
the parsed JSON body, `httpError` is a non-success HTTP status (`!res.ok`)
and `netError` a thrown network error (the `catch` branch). -/

/-- Outcome of a `fetch` as the source distinguishes it. -/
inductive FetchResult (α : Type)
  | ok (data : α)
  | httpError
  | netError
deriving DecidableEq

/-- Parsed body of the AbstractAPI email-validation response: `v2` is the
`email_deliverability` format, `v1` the legacy format.  Each carries the
(raw) status string, if present, and the format-validity flag. -/
inductive EmailApiData
  | v2 (status : Option String) (isFormatValid : Bool)
  | v1 (deliverability : Option String) (isFormatValid : Bool)
deriving DecidableEq

namespace Edge

/-- `${status || "unknown"}`: an absent or empty status falls back. -/
def statusOr : Option String → String
  | some s => if s = "" then ("unknown") else s
  | none => "unknown"

/-- Shared tail of both response formats in `validateEmail`. -/
def emailVerdictOf (status : Option String) (isFormatValid : Bool) : Verdict :=
  let st := status.map lowerStr
  if isFormatValid = false then ⟨false, "Invalid email format"⟩
  else if st == some ("deliverable") || st == some ("risky") then ⟨true, "Email is valid"⟩
  else ⟨false, "Email issue: " ++ statusOr st⟩

/-- `validateEmail` in the edge function.  Both infrastructure-failure
branches return `valid: true` (the source comments them as deliberate
fail-open fixes). -/
def validateEmail : FetchResult EmailApiData → Verdict
  | FetchResult.httpError =>
    ⟨true, "Validation service temporarily unavailable. Proceeding."⟩
  | FetchResult.netError =>
    ⟨true, "Could not automatically verify email. Please ensure it is correct."⟩
  | FetchResult.ok (EmailApiData.v2 status fmt) => emailVerdictOf status fmt
  | FetchResult.ok (EmailApiData.v1 deliv fmt) => emailVerdictOf deliv fmt

/-- Parsed body of the AbstractAPI phone-validation response. -/
structure PhoneApiData where
  countryCode : Option String
  valid : Bool
deriving DecidableEq

/-- Verdict record `{ valid, isIndian, reason }` of the phone validator. -/
structure PhoneVerdict where
  valid : Bool
  isIndian : Bool
  reason : String
deriving DecidableEq, Repr

/-- `validatePhone` in the edge function.  Both infrastructure-failure
branches return `valid: false`. -/
def validatePhone : FetchResult PhoneApiData → PhoneVerdict
  | FetchResult.httpError => ⟨false, false, "Validation service unavailable"⟩
  | FetchResult.netError => ⟨false, false, "Could not validate phone"⟩
  | FetchResult.ok d =>
    if d.countryCode ≠ some ("IN") then
      ⟨false, false, "Only Indian mobile numbers (+91) are accepted."⟩
    else ⟨d.valid, true, if d.valid then ("Phone is valid") else ("Phone number appears invalid")⟩

end Edge

/-! ## Client-side adapters in `ChatPage.tsx`

The client calls the edge function over HTTP; a `FetchResult` here describes
that call (`ok` carries the edge verdict; the edge answers these requests
with status 200). -/

/-- Client `validateEmail`: `if (!resp.ok) return true` — fail-open fallback
when the edge call itself fails. -/
def clientValidateEmail : FetchResult Verdict → Bool
  | FetchResult.ok v => v.valid
  | _ => true

/-- Client `validatePhone`: `if (!resp.ok) return { valid: true, reason: "" }`. -/
def clientValidatePhone : FetchResult Edge.PhoneVerdict → Bool × String
  | FetchResult.ok v => (v.valid, v.reason)
  | _ => (true, "")

/-! ## Account details generation (`generateAccountDetails` in `ChatPage.tsx`)

`Math.random().toString()` is a decimal string such as `"0.8442694…"`; the
first random draw is embedded as that string (`randStr`), the second draw
(for the IFSC index) as a rational `r2` with `Math.floor(r2 * 3)` indexing
the pool. -/

/-- The fixed pool of IFSC codes. -/
def ifscCodes : List String := ["ONBX0001234", "ONBX0005678", "ONBX0009012"]

/-- `accountNumber = "3" + Math.random().toString().slice(2, 13)` and
`ifsc = ifscCodes[Math.floor(Math.random() * 3)]`. -/
def generateAccountDetails (randStr : String) (r2 : ℚ) : String × String :=
  ("3" ++ (randStr.drop 2).take 11, ifscCodes.getD (Int.toNat ⌊r2 * 3⌋) "")

/-! ## Onboarding session state machine (`ChatPage.tsx`)

The chat controller is embedded as a sequential event-step machine: each
user action or completed assistant reply is one event, and the React state
updates of a handler are applied atomically.  UI-only state (`progress`,
`isLoading`, the `showFaceVerify` overlay flag and the `faceVerifyTriggered`
ref, which gate only when the camera opens, never `step`) is not carried.
Consecutive streamed bot chunks are recorded as one message per reply. -/

/-- The `step` union type of `OnboardingState`. -/
inductive Step
  | chat
  | awaitingIncome
  | awaitingEmail
  | awaitingPhone
  | done
deriving DecidableEq, Repr

/-- Message roles of the transcript. -/
inductive Role
  | user
  | bot
deriving DecidableEq, Repr

/-- A transcript message (`content` plus the `isFile` / `isAccountDetails`
flags of the `Message` interface). -/
structure Msg where
  role : Role
  content : String
  isFile : Bool
  isAccountDetails : Bool
deriving DecidableEq, Repr

/-- A plain bot message. -/
def botMsg (c : String) : Msg := ⟨Role.bot, c, false, false⟩

/-- A plain user message. -/
def userTextMsg (c : String) : Msg := ⟨Role.user, c, false, false⟩

/-- The user-side file message `📎 name`. -/
def fileMsg (name : String) : Msg := ⟨Role.user, "📎 " ++ name, true, false⟩

/-- The `OnboardingState` record plus the transcript, and a ghost log
`riskCalls` of the `employmentType` strings sent to the risk endpoint
(instrumentation for the scoring-call claims; it affects nothing). -/
structure SessionState where
  employmentType : String
  monthlyIncome : Option ℚ
  email : String
  phone : String
  documentsVerified : Bool
  faceVerified : Bool
  accountNumber : String
  ifsc : String
  step : Step
  messages : List Msg
  riskCalls : List String
deriving DecidableEq, Repr

/-- Initial session state. -/
def initState : SessionState :=
  ⟨"", none, "", "", false, false, "", "", Step.chat, [], []⟩

/-- Append a message to the transcript. -/
def pushMsg (s : SessionState) (m : Msg) : SessionState :=
  { s with messages := s.messages ++ [m] }

/-- Remove every transcript message with exactly this content (the source
pushes a transient `⏳ Validating…` message and later filters it out by
content; push followed by filter nets to this). -/
def dropByContent (s : SessionState) (c : String) : SessionState :=
  { s with messages := s.messages.filter (fun m => m.content != c) }

/-- `FACE_TRIGGER_PHRASES` (opens the capture overlay; never changes `step`). -/
def FACE_TRIGGER_PHRASES : List String :=
  ["face verification", "camera will open", "open the camera", "liveness check",
   "selfie", "face scan"]

/-- `INCOME_TRIGGER_PHRASES`. -/
def INCOME_TRIGGER_PHRASES : List String :=
  ["monthly income", "financial profile", "income in inr", "your income"]

/-- `EMAIL_TRIGGER_PHRASES`. -/
def EMAIL_TRIGGER_PHRASES : List String :=
  ["email address", "send account details", "your email"]

/-- `PHONE_TRIGGER_PHRASES`. -/
def PHONE_TRIGGER_PHRASES : List String :=
  ["mobile number", "indian mobile", "phone number", "+91", "sms confirmation"]

/-- `phrases.some((p) => lower.includes(p))` on the lower-cased reply. -/
def triggersAny (phrases : List String) (reply : String) : Bool :=
  phrases.any (fun p => includesSub (lowerStr reply) p)

/-- `detectEmployment`: first matching substring wins, else `""`. -/
def detectEmployment (text : String) : String :=
  let t := lowerStr text
  if includesSub t ("freelan") then ("freelancer")
  else if includesSub t ("salar") then ("salaried")
  else if includesSub t ("business") || includesSub t ("owner") then ("business")
  else if includesSub t ("student") then ("student")
  else ("")

/-- Environment of one user action: the outcomes of the external calls it may
make (edge responses for email/phone validation, whether the risk-scoring
call answered ok) and the two random draws consumed if finalization runs. -/
structure Env where
  emailEdge : FetchResult Verdict
  phoneEdge : FetchResult Edge.PhoneVerdict
  riskOk : Bool
  randStr : String
  r2 : ℚ

/-- `text.replace(/[^0-9.]/g, "")`. -/
def stripIncomeChars (t : String) : List Char :=
  t.data.filter (fun c => c.isDigit || c = '.')

/-- Decimal value of a digit list. -/
def digitsToNat (ds : List Char) : ℕ :=
  ds.foldl (fun a c => a * 10 + (c.toNat - 48)) 0

/-- JavaScript `parseFloat` restricted to digit/dot strings (the only inputs
it receives here, after stripping): longest prefix `digits [. digits]`, `none`
for `NaN` (no digit consumed). -/
def parseFloatDigits (cs : List Char) : Option ℚ :=
  let ip := cs.takeWhile Char.isDigit
  let rest := cs.drop ip.length
  match rest with
  | '.' :: rest2 =>
    let fp := rest2.takeWhile Char.isDigit
    if ip.isEmpty && fp.isEmpty then none
    else some ((digitsToNat ip : ℚ) + (digitsToNat fp : ℚ) / (10 : ℚ) ^ fp.length)
  | _ => if ip.isEmpty then none else some ((digitsToNat ip : ℚ))

/-- `parseFloat(text.replace(/[^0-9.]/g, ""))`. -/
def parseIncome (t : String) : Option ℚ := parseFloatDigits (stripIncomeChars t)

/-- The JavaScript whitespace class, shared by the regex `\s` and by
`String.prototype.trim` (ECMAScript WhiteSpace and LineTerminator): tab, LF,
VT, FF, CR, space, NBSP, Ogham space mark, the en-quad..hair-space range,
LS, PS, NNBSP, MMSP, ideographic space, and BOM.  Lean's own
`Char.isWhitespace` covers only the ASCII subset and would be unfaithful. -/
def jsWhitespace (c : Char) : Bool :=
  c = ' ' || c = '\t' || c = '\n' || c = '\r' || c.toNat = 11 || c.toNat = 12 ||
  c.toNat = 160 || c.toNat = 5760 || (8192 ≤ c.toNat && c.toNat ≤ 8202) ||
  c.toNat = 8232 || c.toNat = 8233 || c.toNat = 8239 || c.toNat = 8287 ||
  c.toNat = 12288 || c.toNat = 65279

/-- `phone.replace(/[\s\-().]/g, "")`. -/
def stripPhone (t : String) : String :=
  String.mk (t.data.filter (fun c => !(jsWhitespace c || c = '-' || c = '(' || c = ')' || c = '.')))

/-- JavaScript `String.prototype.trim` at the character level: the
`jsWhitespace` class stripped from both ends. -/
def trimStr (t : String) : String :=
  String.mk (((t.data.dropWhile jsWhitespace).reverse.dropWhile jsWhitespace).reverse)

/-- Split a character list at every occurrence of `c` (the behaviour of
`String.prototype.split` / `String.splitOn` on a one-character separator). -/
def splitOnChar (c : Char) : List Char → List (List Char)
  | [] => [[]]
  | x :: xs =>
    if x = c then [] :: splitOnChar c xs
    else
      match splitOnChar c xs with
      | r :: rs => (x :: r) :: rs
      | [] => [[x]]

/-- The email format regex `/^[^\s@]+@[^\s@]+\.[^\s@]+$/`: no whitespace,
exactly one `@` splitting nonempty local and domain parts, and a dot inside
the domain with at least one character on each side. -/
def emailFormatValid (s : String) : Bool :=
  match splitOnChar '@' s.data with
  | [lcl, domain] =>
    s.data.all (fun c => !jsWhitespace c) && !lcl.isEmpty && !domain.isEmpty &&
    ((domain.drop 1).dropLast.contains '.')
  | _ => false

/-- `employmentType || current.employmentType || "salaried"` inside
`runRiskScoring` (the call site passes the current employment for both). -/
def riskEmployment (param current : String) : String :=
  if param ≠ "" then param else if current ≠ "" then current else ("salaried")

/-- Re-prompt of `handleIncomeInput`. -/
def incomeErrText : String :=
  "Please enter a valid monthly income amount in INR (e.g. 45000)."

/-- The risk-assessment chat bubble.  Its content is a numeric template over
the edge reply (rounded probability and DTI through float formatting); it is
presentational and modelled opaquely — no claim depends on its text. -/
def riskAssessmentText : String := "risk-assessment"

/-- `handleIncomeInput`: parse the stripped text; `!income || income < 1000`
re-prompts; otherwise record the income, return to `chat` and run risk
scoring (the request is sent regardless of whether the reply arrives ok). -/
def handleIncomeInput (env : Env) (text : String) (s : SessionState) : SessionState :=
  match parseIncome text with
  | none => pushMsg s (botMsg incomeErrText)
  | some v =>
    if v = 0 ∨ v < 1000 then pushMsg s (botMsg incomeErrText)
    else
      let s1 := { s with monthlyIncome := some v, step := Step.chat }
      let s2 := { s1 with
        riskCalls := s1.riskCalls ++ [riskEmployment s1.employmentType s1.employmentType] }
      if env.riskOk then pushMsg s2 (botMsg riskAssessmentText) else s2

/-- Format re-prompt of `handleEmailInput` (source text has an apostrophe in
"doesn't"; elided here). -/
def emailFormatErrText : String :=
  "That does not look like a valid email. Please try again."

/-- Transient validating message for email. -/
def validatingEmailText : String := "⏳ Validating your email address..."

/-- Deliverability re-prompt of `handleEmailInput`. -/
def emailInvalidText : String :=
  "❌ This email address appears invalid or undeliverable. Please provide a valid email."

/-- Success message of `handleEmailInput`. -/
def emailOkText (email : String) : String :=
  "✅ Email validated! Account details will be sent to **" ++ email ++ "** once your account is created."

/-- `handleEmailInput`: local regex pre-check, then the edge deliverability
check; on pass, record the email and return to `chat`. -/
def handleEmailInput (env : Env) (email : String) (s : SessionState) : SessionState :=
  if emailFormatValid email = false then pushMsg s (botMsg emailFormatErrText)
  else
    let s1 := dropByContent (pushMsg s (botMsg validatingEmailText)) validatingEmailText
    if clientValidateEmail env.emailEdge = false then pushMsg s1 (botMsg emailInvalidText)
    else
      let s2 := { s1 with email := email, step := Step.chat }
      pushMsg s2 (botMsg (emailOkText email))

/-- Transient validating message for phone. -/
def validatingPhoneText : String := "⏳ Validating your mobile number..."

/-- Fallback error text of `handlePhoneInput`. -/
def phoneDefaultErrText : String :=
  "Invalid phone number. Please enter a valid Indian mobile number (+91)."

/-- Success message of `handlePhoneInput`. -/
def phoneOkText (cleaned : String) : String :=
  "✅ Mobile number validated! SMS confirmation will be sent to " ++ cleaned ++ "."

/-- The account-details chat bubble pushed by `finalizeAccount`, identified
by its `isAccountDetails` flag.  Its content is a template over the account
number, IFSC, contact fields and the risk badge (float-formatted
percentage); it is presentational and modelled opaquely. -/
def accountDetailsText : String := "account-details"

/-- `finalizeAccount`: generate account number and IFSC, store them, and push
the account-details message.  The source has no firing guard of its own. -/
def finalizeAccount (env : Env) (s : SessionState) : SessionState :=
  let d := generateAccountDetails env.randStr env.r2
  let s1 := { s with accountNumber := d.1, ifsc := d.2 }
  pushMsg s1 ⟨Role.bot, accountDetailsText, false, true⟩

/-- `handlePhoneInput`: strip separators, ask the edge validator (with the
client fail-open fallback), re-prompt on an invalid verdict; on a valid one
record the phone, move to `done` and finalize the account. -/
def handlePhoneInput (env : Env) (phone : String) (s : SessionState) : SessionState :=
  let cleaned := stripPhone phone
  let s1 := dropByContent (pushMsg s (botMsg validatingPhoneText)) validatingPhoneText
  let res := clientValidatePhone env.phoneEdge
  if res.1 = false then
    pushMsg s1 (botMsg ("❌ " ++ (if res.2 = "" then phoneDefaultErrText else res.2)))
  else
    let s2 := { s1 with phone := cleaned, step := Step.done }
    let s3 := pushMsg s2 (botMsg (phoneOkText cleaned))
    finalizeAccount env s3

/-- The trigger-phrase handling at the end of `streamMessage`, applied to the
completed assistant reply.  The income / email / phone updates run in source
order, so a later trigger overrides an earlier one; the face trigger only
schedules the capture overlay and changes no `step`. -/
def applyReplyTriggers (s : SessionState) (reply : String) : SessionState :=
  let s1 := if triggersAny INCOME_TRIGGER_PHRASES reply then
    { s with step := Step.awaitingIncome } else s
  let s2 := if triggersAny EMAIL_TRIGGER_PHRASES reply ∧ s1.email = "" then
    { s1 with step := Step.awaitingEmail } else s1
  if triggersAny PHONE_TRIGGER_PHRASES reply ∧ s2.phone = "" then
    { s2 with step := Step.awaitingPhone } else s2

/-- Success bubble of `handleFaceVerified`. -/
def faceOkText : String :=
  "✅ Face verification successful! Your identity has been confirmed. Running risk scoring now… 📊"

/-- One session event: a user send (with the outcomes of the external calls
it may make), a completed assistant reply, a face-capture result, or a file
upload. -/
inductive Event
  | userSend (text : String) (env : Env)
  | botReply (reply : String)
  | faceResult (succ : Bool) (message : String)
  | fileUpload (name : String)

/-- The step-routing block of `sendMessage`: `awaitingIncome`,
`awaitingEmail` and `awaitingPhone` dispatch to their handlers; any other
step falls through to `streamMessage` (whose reply is a later event). -/
def routeUserText (env : Env) (t : String) (s2 : SessionState) : SessionState :=
  match s2.step with
  | Step.awaitingIncome => handleIncomeInput env t s2
  | Step.awaitingEmail => handleEmailInput env t s2
  | Step.awaitingPhone => handlePhoneInput env t s2
  | _ => s2

/-- One step of the session machine.

`userSend` is `sendMessage`: trim, append the user message, passively detect
employment (first detection wins), then route on `step`; the default route
is `streamMessage`, whose assistant reply arrives as a later `botReply`
event.  `botReply` appends the reply and applies the trigger handling.
`faceResult` is `handleFaceVerified`; `fileUpload` is `handleFileUpload`
(any state accepts an upload and marks `documentsVerified`). -/
def stepEvent (s : SessionState) : Event → SessionState
  | Event.botReply r => applyReplyTriggers (pushMsg s (botMsg r)) r
  | Event.userSend text env =>
    let t := trimStr text
    if t = "" then s
    else
      let s1 := pushMsg s (userTextMsg t)
      let emp := detectEmployment t
      let s2 := if emp ≠ "" ∧ s1.employmentType = "" then
        { s1 with employmentType := emp } else s1
      routeUserText env t s2
  | Event.faceResult succ message =>
    let s1 := { s with faceVerified := succ }
    pushMsg s1 (botMsg (if succ then faceOkText else message))
  | Event.fileUpload name =>
    let s1 := pushMsg s (fileMsg name)
    { s1 with documentsVerified := true }

/-- Run a session from the initial state over a list of events. -/
def runTrace (events : List Event) : SessionState :=
  events.foldl stepEvent initState

/-- Number of account-details messages in a transcript. -/
def countAccountMsgs (ms : List Msg) : ℕ :=
  (ms.filter (fun m => m.isAccountDetails)).length

/-! ## Concrete session fixtures used by witnesses and counterexamples -/

/-- A default environment: edge calls unreachable, risk reply missing. -/
def env0 : Env := ⟨FetchResult.httpError, FetchResult.httpError, false, "0.5", 0⟩

/-- An environment in which the edge phone validator answered, but its own
upstream AbstractAPI call failed with a non-success HTTP status. -/
def envPhoneInfraDown : Env :=
  ⟨FetchResult.httpError, FetchResult.ok (Edge.validatePhone FetchResult.httpError),
    false, "0.5", 0⟩

/-- A session waiting for the phone number. -/
def sPhone0 : SessionState := { initState with step := Step.awaitingPhone }

/-- A session waiting for the income amount. -/
def sIncome0 : SessionState := { initState with step := Step.awaitingIncome }

/-- A session whose detected employment is `student`. -/
def sStudent0 : SessionState := { initState with employmentType := "student" }

/-! ## Risk model lemmas -/

/-- The logistic function is strictly positive. -/
theorem sigmoid_pos (x : ℝ) : 0 < sigmoid x := by
  unfold sigmoid
  positivity

/-- The logistic function is strictly below one. -/
theorem sigmoid_lt_one (x : ℝ) : sigmoid x < 1 := by
  unfold sigmoid
  rw [div_lt_one (by positivity)]
  have h := Real.exp_pos (-x)
  linarith

/-- Classification threshold for `Low`. -/
theorem riskLevel_low_iff (p : ℝ) : riskLevel p = RiskLevel.Low ↔ p < 0.35 := by
  unfold riskLevel
  split_ifs with h1 h2
  · simp [h1]
  · constructor
    · intro hc
      exact absurd hc (by decide)
    · intro hc
      exact absurd hc h1
  · constructor
    · intro hc
      exact absurd hc (by decide)
    · intro hc
      exact absurd hc h1

/-- Classification thresholds for `Medium`. -/
theorem riskLevel_medium_iff (p : ℝ) :
    riskLevel p = RiskLevel.Medium ↔ 0.35 ≤ p ∧ p < 0.65 := by
  unfold riskLevel
  split_ifs with h1 h2
  · constructor
    · intro hc
      exact absurd hc (by decide)
    · intro hc
      linarith [hc.1]
  · constructor
    · intro _
      exact ⟨le_of_not_lt h1, h2⟩
    · intro _
      rfl
  · constructor
    · intro hc
      exact absurd hc (by decide)
    · intro hc
      exact absurd hc.2 h2

/-- Classification threshold for `High`. -/
theorem riskLevel_high_iff (p : ℝ) : riskLevel p = RiskLevel.High ↔ 0.65 ≤ p := by
  unfold riskLevel
  split_ifs with h1 h2
  · constructor
    · intro hc
      exact absurd hc (by decide)
    · intro hc
      linarith
  · constructor
    · intro hc
      exact absurd hc (by decide)
    · intro hc
      linarith
  · constructor
    · intro _
      exact le_of_not_lt h2
    · intro _
      rfl

/-- Lower numeric bound used for the student example: `sigmoid(1.7) ≥ 0.65`. -/
theorem sigmoid_seventeen_tenths : (0.65 : ℝ) ≤ sigmoid 1.7 := by
  unfold sigmoid
  have h1 : (2.7 : ℝ) ≤ Real.exp 1.7 := by
    have h := Real.add_one_le_exp (1.7 : ℝ)
    linarith
  have h2 : Real.exp (-(1.7 : ℝ)) = (Real.exp 1.7)⁻¹ := by
    rw [Real.exp_neg]
  have h3 : Real.exp (-(1.7 : ℝ)) ≤ (2.7 : ℝ)⁻¹ := by
    rw [h2]
    apply inv_le_inv_of_le
    · norm_num
    · exact h1
  have hd : (0 : ℝ) < 1 + Real.exp (-(1.7 : ℝ)) := by positivity
  rw [le_div_iff hd]
  nlinarith [h3]

/-- C1 counterexample: `calculateRisk` does not return a probability in
`[0, 1]` for every string `employmentType`.  At `"constructor"` the bracket
lookup resolves the inherited `Object.prototype.constructor` (a function,
not replaced by `?? 0.3`), `z` becomes a string, and the probability is
`NaN` (modelled `none`) — so `0 ≤ probability ≤ 1` fails — while both `NaN`
comparisons are false and the level classifies as `High` although
`probability ≥ 0.65` does not hold. -/
theorem claim1_counterexample :
    (calculateRisk ⟨5000, "constructor", false, false⟩).probability = none ∧
    (calculateRisk ⟨5000, "constructor", false, false⟩).level = RiskLevel.High :=
  ⟨rfl, rfl⟩

/-- C1 amended: for every `RiskInputs` with non-negative `monthlyIncome`
whose lower-cased `employmentType` does not collide with an inherited
`Object.prototype` property name, `calculateRisk` returns a numeric
probability in `[0, 1]`, and `level` is determined solely by that
probability: `Low` exactly below `0.35`, `Medium` exactly in `[0.35, 0.65)`,
`High` exactly at or above `0.65`. -/
theorem claim1_amended_numeric_employment (i : RiskInputs)
    (h : 0 ≤ i.monthlyIncome)
    (hproto : lowerStr i.employmentType ∉ objectProtoProps) :
    ∃ p : ℝ, (calculateRisk i).probability = some p ∧
      (0 ≤ p ∧ p ≤ 1) ∧
      ((calculateRisk i).level = RiskLevel.Low ↔ p < 0.35) ∧
      ((calculateRisk i).level = RiskLevel.Medium ↔ 0.35 ≤ p ∧ p < 0.65) ∧
      ((calculateRisk i).level = RiskLevel.High ↔ 0.65 ≤ p) := by
  have he : ∃ q : ℚ, empScore i.employmentType = some q := by
    unfold empScore
    cases hE : employmentScore (lowerStr i.employmentType) with
    | some q => exact ⟨q, rfl⟩
    | none => exact ⟨0.3, by rw [if_neg hproto]⟩
  obtain ⟨q, hq⟩ := he
  have hz : zScore i = some (-1.5 + incomeScore i.monthlyIncome + q
      + verifyScore i.documentsVerified i.faceVerified) := by
    show (empScore i.employmentType).map (fun x =>
      -1.5 + incomeScore i.monthlyIncome + x
        + verifyScore i.documentsVerified i.faceVerified) = _
    rw [hq]
    rfl
  have hp : (calculateRisk i).probability
      = some (sigmoid (((-1.5 + incomeScore i.monthlyIncome + q
        + verifyScore i.documentsVerified i.faceVerified : ℚ)) : ℝ)) := by
    show (zScore i).map (fun z : ℚ => sigmoid ((z : ℝ))) = _
    rw [hz]
    rfl
  have hl : (calculateRisk i).level
      = riskLevel (sigmoid (((-1.5 + incomeScore i.monthlyIncome + q
        + verifyScore i.documentsVerified i.faceVerified : ℚ)) : ℝ)) := by
    show riskLevelJs ((zScore i).map (fun z : ℚ => sigmoid ((z : ℝ)))) = _
    rw [hz]
    rfl
  refine ⟨_, hp, ⟨le_of_lt (sigmoid_pos _), le_of_lt (sigmoid_lt_one _)⟩, ?_, ?_, ?_⟩
  · rw [hl]
    exact riskLevel_low_iff _
  · rw [hl]
    exact riskLevel_medium_iff _
  · rw [hl]
    exact riskLevel_high_iff _

/-- Witness for the C1 amended theorem at the concrete student input. -/
theorem claim1_witness :
    (0 : ℚ) ≤ 5000 ∧
    lowerStr ("student") ∉ objectProtoProps ∧
    (∃ p : ℝ, (calculateRisk ⟨5000, "student", false, false⟩).probability = some p ∧
      (0 ≤ p ∧ p ≤ 1)) := by
  refine ⟨by norm_num, by decide, ?_⟩
  obtain ⟨p, h1, h2, _⟩ := claim1_amended_numeric_employment
    ⟨5000, "student", false, false⟩ (by norm_num) (by decide)
  exact ⟨p, h1, h2⟩

/-- C2: on `{monthlyIncome: 5000, employmentType: "student",
documentsVerified: false, faceVerified: false}` the accumulated terms give
`z = -1.5 + 1.5 + 1.2 + 0.3 + 0.2 = 1.7`, `dti = 55` exactly, and since
`sigmoid(1.7) ≥ 0.65` the level is `High`. -/
theorem claim2_student_example :
    zScore ⟨5000, "student", false, false⟩ = some 1.7 ∧
    (calculateRisk ⟨5000, "student", false, false⟩).dti = 55 ∧
    (calculateRisk ⟨5000, "student", false, false⟩).level = RiskLevel.High := by
  have he : empScore ("student") = some 1.2 := by
    unfold empScore
    rw [show lowerStr ("student") = "student" from by decide]
    simp [employmentScore]
  have hz : zScore ⟨5000, "student", false, false⟩ = some 1.7 := by
    show (empScore ("student")).map (fun x =>
      -1.5 + incomeScore 5000 + x + verifyScore false false) = some 1.7
    rw [he]
    simp only [Option.map_some', Option.some.injEq]
    norm_num [incomeScore, verifyScore]
  refine ⟨hz, by decide, ?_⟩
  have hp : (calculateRisk ⟨5000, "student", false, false⟩).probability
      = some (sigmoid (((1.7 : ℚ)) : ℝ)) := by
    show (zScore ⟨5000, "student", false, false⟩).map
      (fun z : ℚ => sigmoid ((z : ℝ))) = _
    rw [hz]
    rfl
  show riskLevelJs (probOf ⟨5000, "student", false, false⟩) = RiskLevel.High
  rw [show probOf ⟨5000, "student", false, false⟩
        = some (sigmoid (((1.7 : ℚ)) : ℝ)) from hp]
  show riskLevel (sigmoid (((1.7 : ℚ)) : ℝ)) = RiskLevel.High
  rw [show (((1.7 : ℚ) : ℝ)) = (1.7 : ℝ) by norm_num, riskLevel_high_iff]
  exact sigmoid_seventeen_tenths

/-- C9: when `employmentType` differs from `student` / `freelancer` /
`business` only in letter case, the employment coefficient still comes from
the lower-cased lookup (e.g. `1.2` when it lower-cases to `student`), while
`dti` falls through all three case-sensitive equality tests to the income
formula `max(10, 40 - monthlyIncome / 5000)`. -/
theorem claim9_case_mismatch_emp_vs_dti (i : RiskInputs)
    (hmem : lowerStr i.employmentType ∈ (["student", "freelancer", "business"] : List String))
    (hne : i.employmentType ≠ lowerStr i.employmentType) :
    employmentScore (lowerStr i.employmentType) = empScore i.employmentType ∧
    (lowerStr i.employmentType = "student" → empScore i.employmentType = some 1.2) ∧
    dti i = max 10 (40 - i.monthlyIncome / 5000) := by
  have hs : i.employmentType ≠ "student" := by
    intro h
    rw [h] at hne
    exact hne (by decide)
  have hf : i.employmentType ≠ "freelancer" := by
    intro h
    rw [h] at hne
    exact hne (by decide)
  have hb : i.employmentType ≠ "business" := by
    intro h
    rw [h] at hne
    exact hne (by decide)
  refine ⟨?_, ?_, ?_⟩
  · simp only [List.mem_cons, List.mem_singleton, List.not_mem_nil, or_false] at hmem
    unfold empScore
    rcases hmem with h | h | h <;> rw [h] <;> simp [employmentScore]
  · intro h
    unfold empScore
    rw [h]
    simp [employmentScore]
  · unfold dti
    rw [if_neg hs, if_neg hf, if_neg hb]

/-- Witness for C9 at the input `"Student"` with income 5000. -/
theorem claim9_witness :
    lowerStr ("Student") ∈ (["student", "freelancer", "business"] : List String) ∧
    ("Student" : String) ≠ lowerStr ("Student") ∧
    dti ⟨5000, "Student", false, false⟩ = max 10 (40 - (5000 : ℚ) / 5000) :=
  ⟨by decide, by decide,
    (claim9_case_mismatch_emp_vs_dti ⟨5000, "Student", false, false⟩
      (by decide) (by decide)).2.2⟩

/-- C8: `validatePANFormat` accepts `"ABCPT1234F"` and the lowercase
`"abcpt1234f"` after upper-casing, and rejects `"ABCD1234F"` with the reason
string naming the expected 10-character structure. -/
theorem claim8_pan_validator :
    (validatePANFormat ("ABCPT1234F")).valid = true ∧
    (validatePANFormat ("abcpt1234f")).valid = true ∧
    (validatePANFormat ("ABCD1234F")).valid = false ∧
    (validatePANFormat ("ABCD1234F")).reason =
      "PAN \"ABCD1234F\" has invalid format. Must be ABCDE1234F (5 letters, 4 digits, 1 letter). 4th letter must indicate holder type (P=Individual, C=Company, etc)." :=
  ⟨by decide, by decide, by decide, by decide⟩

/-- C5 counterexample: the phone deliverability check is not fail-open.  On a
non-success upstream HTTP status or a thrown network error the edge
`validatePhone` returns `valid: false`, and a user phone entry made while
that infrastructure is down leaves the session blocked at `awaitingPhone`
with a re-prompt. -/
theorem claim5_counterexample :
    (Edge.validatePhone FetchResult.httpError).valid = false ∧
    (Edge.validatePhone FetchResult.netError).valid = false ∧
    (stepEvent sPhone0 (Event.userSend ("9876543210") envPhoneInfraDown)).step
      = Step.awaitingPhone ∧
    (stepEvent sPhone0 (Event.userSend ("9876543210") envPhoneInfraDown)).phone
      = sPhone0.phone :=
  ⟨by decide, by decide, by decide, by decide⟩

/-- C5 amended: the email deliverability check is fail-open on both
infrastructure-failure modes, and the client treats a failed edge call
itself as fail-open for both checks; but the edge phone check is fail-closed
(`valid: false`) on both failure modes. -/
theorem claim5_amended_failopen_email_failclosed_phone :
    (Edge.validateEmail FetchResult.httpError).valid = true ∧
    (Edge.validateEmail FetchResult.netError).valid = true ∧
    (Edge.validatePhone FetchResult.httpError).valid = false ∧
    (Edge.validatePhone FetchResult.netError).valid = false ∧
    clientValidateEmail FetchResult.httpError = true ∧
    clientValidateEmail FetchResult.netError = true ∧
    (clientValidatePhone FetchResult.httpError).1 = true ∧
    (clientValidatePhone FetchResult.netError).1 = true :=
  ⟨rfl, rfl, rfl, rfl, rfl, rfl, rfl, rfl⟩

/-- C7 counterexample: `generateAccountDetails` does not return a 12-digit
numeral for every value of the random source — when `Math.random()` returns
`0.5` its decimal string is `"0.5"` and the account number is the 2-digit
`"35"`; and a draw below `1e-6` stringifies in exponential notation, e.g.
`0.00000099` gives `"9.9e-7"` and the account number `"39e-7"`, which is not
even a numeral. -/
theorem claim7_counterexample :
    (generateAccountDetails ("0.5") (1 / 2)).1 = "35" ∧
    (generateAccountDetails ("0.5") (1 / 2)).1.length ≠ 12 ∧
    (generateAccountDetails ("9.9e-7") (1 / 2)).1 = "39e-7" ∧
    (generateAccountDetails ("9.9e-7") (1 / 2)).1.data.all Char.isDigit = false :=
  ⟨by decide, by decide, by decide, by decide⟩

/-- C7 amended: for every value `randStr` of the first random draw's string
and every second draw `r2 ∈ [0, 1)`, the account number starts with the
fixed character `3`, has length at most 12, and the IFSC is one of the
fixed pool of 3 codes; when additionally the draw's string has the plain
decimal form `"0." ++ ds` with `ds` all digits — which fails for draws below
`1e-6` (exponential strings) and for the draw 0 — the account number
consists of digits only, with length exactly 12 precisely when at least 11
fractional digits are available. -/
theorem claim7_amended_account_details (randStr ds : String) (r2 : ℚ)
    (h0 : 0 ≤ r2) (h1 : r2 < 1) :
    ((generateAccountDetails randStr r2).1.data.head? = some '3' ∧
      (generateAccountDetails randStr r2).1.length ≤ 12 ∧
      (generateAccountDetails randStr r2).2 ∈ ifscCodes) ∧
    (randStr = "0." ++ ds → ds.data.all Char.isDigit = true →
      (generateAccountDetails randStr r2).1.data.all Char.isDigit = true ∧
      (11 ≤ ds.length → (generateAccountDetails randStr r2).1.length = 12)) := by
  have hnum0 : (generateAccountDetails randStr r2).1.data
      = '3' :: ((randStr.drop 2).take 11).data := by
    show (("3" ++ (randStr.drop 2).take 11)).data = '3' :: ((randStr.drop 2).take 11).data
    rw [String.data_append]
    rfl
  have hlen0 : (generateAccountDetails randStr r2).1.length
      = 1 + min 11 (randStr.drop 2).data.length := by
    rw [← String.length_data, hnum0, String.data_take]
    simp [List.length_take]
    omega
  refine ⟨⟨?_, ?_, ?_⟩, ?_⟩
  · rw [hnum0]
    rfl
  · rw [hlen0]
    omega
  · show ifscCodes.getD (Int.toNat ⌊r2 * 3⌋) ("") ∈ ifscCodes
    have hlt : ⌊r2 * 3⌋ < 3 := by
      apply Int.floor_lt.mpr
      push_cast
      linarith
    have hidx : Int.toNat ⌊r2 * 3⌋ < 3 := by omega
    set n := Int.toNat ⌊r2 * 3⌋ with hn
    interval_cases n <;> decide
  · intro hform hdig
    subst hform
    have hdrop : ((("0." ++ ds) : String).drop 2).data = ds.data := by
      rw [String.data_drop, String.data_append]
      rfl
    constructor
    · rw [hnum0, String.data_take, hdrop]
      rw [List.all_eq_true] at hdig ⊢
      intro x hx
      rcases List.mem_cons.mp hx with h | h
      · rw [h]
        decide
      · exact hdig x (List.mem_of_mem_take h)
    · intro hd
      rw [← String.length_data] at hd
      rw [hlen0, hdrop]
      omega

/-- Witness for the C7 amended theorem with 11 fractional digits. -/
theorem claim7_witness :
    ("0.12345678901" : String) = "0." ++ "12345678901" ∧
    ("12345678901" : String).data.all Char.isDigit = true ∧
    (0 : ℚ) ≤ 1 / 2 ∧ (1 : ℚ) / 2 < 1 ∧
    (generateAccountDetails ("0.12345678901") (1 / 2)).1.length = 12 :=
  ⟨rfl, by decide, by norm_num, by norm_num,
    ((claim7_amended_account_details ("0.12345678901") ("12345678901") (1 / 2)
      (by norm_num) (by norm_num)).2 rfl (by decide)).2 (by decide)⟩

/-! ## State machine lemmas -/

/-- The trigger handling, written as one step assignment: source order makes
the phone trigger override the email trigger, which overrides the income
trigger; nothing else in the state changes. -/
theorem applyReplyTriggers_eq (s : SessionState) (r : String) :
    applyReplyTriggers s r =
      { s with step :=
          if triggersAny PHONE_TRIGGER_PHRASES r = true ∧ s.phone = "" then Step.awaitingPhone
          else if triggersAny EMAIL_TRIGGER_PHRASES r = true ∧ s.email = "" then Step.awaitingEmail
          else if triggersAny INCOME_TRIGGER_PHRASES r = true then Step.awaitingIncome
          else s.step } := by
  unfold applyReplyTriggers
  by_cases h1 : triggersAny INCOME_TRIGGER_PHRASES r = true <;>
    by_cases h2 : triggersAny EMAIL_TRIGGER_PHRASES r = true <;>
      by_cases h3 : triggersAny PHONE_TRIGGER_PHRASES r = true <;>
        by_cases h4 : s.email = "" <;>
          by_cases h5 : s.phone = "" <;>
            simp [h1, h2, h3, h4, h5] <;> (cases s <;> simp_all)

/-- Transcript count after appending one message. -/
theorem countAccountMsgs_append (ms : List Msg) (m : Msg) :
    countAccountMsgs (ms ++ [m]) =
      countAccountMsgs ms + (if m.isAccountDetails = true then 1 else 0) := by
  unfold countAccountMsgs
  rw [List.filter_append]
  by_cases h : m.isAccountDetails = true <;> simp [h]

/-- Filtering a transcript never increases the account-details count. -/
theorem countAccountMsgs_filter_le (ms : List Msg) (p : Msg → Bool) :
    countAccountMsgs (ms.filter p) ≤ countAccountMsgs ms := by
  unfold countAccountMsgs
  exact List.Sublist.length_le (List.Sublist.filter _ (List.filter_sublist ms))

/-- Pushing a non-account message keeps the account-details count. -/
theorem count_pushMsg_nonaccount (s : SessionState) (m : Msg)
    (hm : m.isAccountDetails = false) :
    countAccountMsgs (pushMsg s m).messages = countAccountMsgs s.messages := by
  show countAccountMsgs (s.messages ++ [m]) = countAccountMsgs s.messages
  rw [countAccountMsgs_append, hm]
  simp

/-- Pushing a bot bubble keeps the account-details count. -/
theorem count_pushMsg_bot (s : SessionState) (c : String) :
    countAccountMsgs (pushMsg s (botMsg c)).messages = countAccountMsgs s.messages :=
  count_pushMsg_nonaccount s (botMsg c) rfl

/-- Dropping messages by content never increases the count. -/
theorem count_dropByContent_le (s : SessionState) (c : String) :
    countAccountMsgs (dropByContent s c).messages ≤ countAccountMsgs s.messages :=
  countAccountMsgs_filter_le s.messages _

/-- Finalization pushes exactly one account-details message. -/
theorem count_finalize (env : Env) (s : SessionState) :
    countAccountMsgs (finalizeAccount env s).messages = countAccountMsgs s.messages + 1 := by
  show countAccountMsgs (s.messages ++ [⟨Role.bot, accountDetailsText, false, true⟩])
    = countAccountMsgs s.messages + 1
  rw [countAccountMsgs_append]
  rfl

/-- `handleIncomeInput` never touches phone, employment, email, account
number; its step is the old one (re-prompt) or `chat` (accepted). -/
theorem handleIncomeInput_parts (env : Env) (t : String) (s : SessionState) :
    (handleIncomeInput env t s).phone = s.phone ∧
    (handleIncomeInput env t s).employmentType = s.employmentType ∧
    ((handleIncomeInput env t s).step = s.step ∨ (handleIncomeInput env t s).step = Step.chat) ∧
    countAccountMsgs (handleIncomeInput env t s).messages = countAccountMsgs s.messages ∧
    ((handleIncomeInput env t s).riskCalls = s.riskCalls ∨
      (handleIncomeInput env t s).riskCalls
        = s.riskCalls ++ [riskEmployment s.employmentType s.employmentType]) := by
  unfold handleIncomeInput
  cases hp : parseIncome t with
  | none =>
    exact ⟨rfl, rfl, Or.inl rfl, count_pushMsg_bot s incomeErrText, Or.inl rfl⟩
  | some v =>
    dsimp only
    split_ifs with hv hr
    · exact ⟨rfl, rfl, Or.inl rfl, count_pushMsg_bot s incomeErrText, Or.inl rfl⟩
    · refine ⟨rfl, rfl, Or.inr rfl, ?_, Or.inr rfl⟩
      exact count_pushMsg_bot _ riskAssessmentText
    · exact ⟨rfl, rfl, Or.inr rfl, rfl, Or.inr rfl⟩

/-- `handleEmailInput` never touches phone, employment, risk calls; its step
is the old one (re-prompt) or `chat`, and its count never grows. -/
theorem handleEmailInput_parts (env : Env) (t : String) (s : SessionState) :
    (handleEmailInput env t s).phone = s.phone ∧
    (handleEmailInput env t s).employmentType = s.employmentType ∧
    ((handleEmailInput env t s).step = s.step ∨ (handleEmailInput env t s).step = Step.chat) ∧
    countAccountMsgs (handleEmailInput env t s).messages ≤ countAccountMsgs s.messages ∧
    (handleEmailInput env t s).riskCalls = s.riskCalls := by
  unfold handleEmailInput
  dsimp only
  split_ifs with hf hv
  · exact ⟨rfl, rfl, Or.inl rfl, le_of_eq (count_pushMsg_bot s emailFormatErrText), rfl⟩
  · refine ⟨rfl, rfl, Or.inl rfl, ?_, rfl⟩
    rw [count_pushMsg_bot]
    exact le_trans (count_dropByContent_le _ _)
      (le_of_eq (count_pushMsg_bot s validatingEmailText))
  · refine ⟨rfl, rfl, Or.inr rfl, ?_, rfl⟩
    rw [count_pushMsg_bot]
    exact le_trans (count_dropByContent_le _ _)
      (le_of_eq (count_pushMsg_bot s validatingEmailText))


/-- `handlePhoneInput` never touches employment or risk calls; an invalid
verdict re-prompts in place, a valid one records the stripped phone, moves
to `done` and finalizes (one account message). -/
theorem handlePhoneInput_parts (env : Env) (t : String) (s : SessionState) :
    (handlePhoneInput env t s).employmentType = s.employmentType ∧
    (handlePhoneInput env t s).riskCalls = s.riskCalls ∧
    (((handlePhoneInput env t s).phone = s.phone ∧
        (handlePhoneInput env t s).step = s.step ∧
        countAccountMsgs (handlePhoneInput env t s).messages
          ≤ countAccountMsgs s.messages) ∨
      ((handlePhoneInput env t s).phone = stripPhone t ∧
        (handlePhoneInput env t s).step = Step.done ∧
        countAccountMsgs (handlePhoneInput env t s).messages
          ≤ countAccountMsgs s.messages + 1)) := by
  have hdrople : countAccountMsgs
      (dropByContent (pushMsg s (botMsg validatingPhoneText)) validatingPhoneText).messages
      ≤ countAccountMsgs s.messages := by
    exact le_trans (count_dropByContent_le _ _)
      (le_of_eq (count_pushMsg_bot s validatingPhoneText))
  unfold handlePhoneInput
  dsimp only
  split_ifs with hv h2
  · refine ⟨rfl, rfl, Or.inl ⟨rfl, rfl, ?_⟩⟩
    rw [count_pushMsg_bot]
    exact hdrople
  · refine ⟨rfl, rfl, Or.inl ⟨rfl, rfl, ?_⟩⟩
    rw [count_pushMsg_bot]
    exact hdrople
  · refine ⟨rfl, rfl, Or.inr ⟨rfl, rfl, ?_⟩⟩
    rw [count_finalize, count_pushMsg_bot]
    show countAccountMsgs
        (dropByContent (pushMsg s (botMsg validatingPhoneText)) validatingPhoneText).messages + 1
      ≤ countAccountMsgs s.messages + 1
    omega

/-- Syntactic trace condition for the finalization claim: every user send
strips (after trimming) to a nonempty phone-candidate string. -/
def sendStripNonemptyB : Event → Bool
  | Event.userSend t _ => stripPhone (trimStr t) != ""
  | _ => true

/-- Invariant behind single finalization: while the recorded phone is empty
no account message exists, a session waiting at `awaitingPhone` has an empty
recorded phone, and the transcript holds at most one account message. -/
def inv4 (s : SessionState) : Prop :=
  (s.step = Step.awaitingPhone → s.phone = "") ∧
  (s.phone = "" → countAccountMsgs s.messages = 0) ∧
  countAccountMsgs s.messages ≤ 1

/-- A state change that avoids `awaitingPhone`, keeps the phone and does not
grow the account count preserves the invariant. -/
theorem inv4_of_nophone (s s' : SessionState) (h : inv4 s)
    (hstep : s'.step ≠ Step.awaitingPhone) (hphone : s'.phone = s.phone)
    (hcount : countAccountMsgs s'.messages ≤ countAccountMsgs s.messages) :
    inv4 s' := by
  refine ⟨fun hx => absurd hx hstep, ?_, le_trans hcount h.2.2⟩
  intro hx
  have h0 := h.2.1 (hphone ▸ hx)
  omega

/-- The routing block preserves the invariant when the stripped input is
nonempty. -/
theorem inv4_route (env : Env) (t : String) (s2 : SessionState)
    (hgood : stripPhone t ≠ "") (h : inv4 s2) : inv4 (routeUserText env t s2) := by
  unfold routeUserText
  cases hs : s2.step with
  | chat => exact h
  | done => exact h
  | awaitingIncome =>
    obtain ⟨hp, _, hstep, hc, _⟩ := handleIncomeInput_parts env t s2
    refine inv4_of_nophone s2 _ h ?_ hp (le_of_eq hc)
    rcases hstep with h' | h'
    · rw [h', hs]
      decide
    · rw [h']
      decide
  | awaitingEmail =>
    obtain ⟨hp, _, hstep, hc, _⟩ := handleEmailInput_parts env t s2
    refine inv4_of_nophone s2 _ h ?_ hp hc
    rcases hstep with h' | h'
    · rw [h', hs]
      decide
    · rw [h']
      decide
  | awaitingPhone =>
    show inv4 (handlePhoneInput env t s2)
    have hph0 : s2.phone = "" := h.1 hs
    have hc0 : countAccountMsgs s2.messages = 0 := h.2.1 hph0
    obtain ⟨_, _, hcase⟩ := handlePhoneInput_parts env t s2
    rcases hcase with ⟨hp, hstep, hc⟩ | ⟨hp, hstep, hc⟩
    · refine ⟨?_, ?_, ?_⟩
      · intro _
        rw [hp]
        exact hph0
      · intro _
        omega
      · omega
    · refine ⟨?_, ?_, ?_⟩
      · intro hx
        rw [hstep] at hx
        exact absurd hx (by decide)
      · intro hx
        rw [hp] at hx
        exact absurd hx hgood
      · omega

/-- One event preserves the invariant when the event satisfies the trace
condition. -/
theorem inv4_step (s : SessionState) (e : Event)
    (hgood : sendStripNonemptyB e = true) (h : inv4 s) : inv4 (stepEvent s e) := by
  cases e with
  | botReply r =>
    rw [show stepEvent s (Event.botReply r)
          = applyReplyTriggers (pushMsg s (botMsg r)) r from rfl,
        applyReplyTriggers_eq]
    refine ⟨?_, ?_, ?_⟩
    · intro hx
      by_cases hP : triggersAny PHONE_TRIGGER_PHRASES r = true
          ∧ (pushMsg s (botMsg r)).phone = ""
      · exact hP.2
      · rw [if_neg hP] at hx
        by_cases hE : triggersAny EMAIL_TRIGGER_PHRASES r = true
            ∧ (pushMsg s (botMsg r)).email = ""
        · rw [if_pos hE] at hx
          exact absurd (show Step.awaitingEmail = Step.awaitingPhone from hx) (by decide)
        · rw [if_neg hE] at hx
          by_cases hI : triggersAny INCOME_TRIGGER_PHRASES r = true
          · rw [if_pos hI] at hx
            exact absurd (show Step.awaitingIncome = Step.awaitingPhone from hx) (by decide)
          · rw [if_neg hI] at hx
            exact h.1 hx
    · intro hx
      show countAccountMsgs (pushMsg s (botMsg r)).messages = 0
      rw [count_pushMsg_bot]
      exact h.2.1 hx
    · show countAccountMsgs (pushMsg s (botMsg r)).messages ≤ 1
      rw [count_pushMsg_bot]
      exact h.2.2
  | userSend text env =>
    by_cases ht : trimStr text = ""
    · simp only [stepEvent]
      rw [if_pos ht]
      exact h
    · simp only [stepEvent]
      rw [if_neg ht]
      have hgood' : stripPhone (trimStr text) ≠ "" := by
        simp only [sendStripNonemptyB] at hgood
        intro hx
        rw [hx] at hgood
        exact absurd hgood (by decide)
      apply inv4_route env (trimStr text) _ hgood'
      split_ifs with hd
      · refine ⟨h.1, ?_, ?_⟩
        · intro hx
          show countAccountMsgs (pushMsg s (userTextMsg (trimStr text))).messages = 0
          rw [count_pushMsg_nonaccount _ _ rfl]
          exact h.2.1 hx
        · show countAccountMsgs (pushMsg s (userTextMsg (trimStr text))).messages ≤ 1
          rw [count_pushMsg_nonaccount _ _ rfl]
          exact h.2.2
      · refine ⟨h.1, ?_, ?_⟩
        · intro hx
          show countAccountMsgs (pushMsg s (userTextMsg (trimStr text))).messages = 0
          rw [count_pushMsg_nonaccount _ _ rfl]
          exact h.2.1 hx
        · show countAccountMsgs (pushMsg s (userTextMsg (trimStr text))).messages ≤ 1
          rw [count_pushMsg_nonaccount _ _ rfl]
          exact h.2.2
  | faceResult succ message =>
    refine ⟨h.1, ?_, ?_⟩
    · intro hx
      show countAccountMsgs (pushMsg { s with faceVerified := succ }
        (botMsg (if succ then faceOkText else message))).messages = 0
      rw [count_pushMsg_bot]
      exact h.2.1 hx
    · show countAccountMsgs (pushMsg { s with faceVerified := succ }
        (botMsg (if succ then faceOkText else message))).messages ≤ 1
      rw [count_pushMsg_bot]
      exact h.2.2
  | fileUpload name =>
    refine ⟨h.1, ?_, ?_⟩
    · intro hx
      show countAccountMsgs (pushMsg s (fileMsg name)).messages = 0
      rw [count_pushMsg_nonaccount _ _ rfl]
      exact h.2.1 hx
    · show countAccountMsgs (pushMsg s (fileMsg name)).messages ≤ 1
      rw [count_pushMsg_nonaccount _ _ rfl]
      exact h.2.2

/-- The invariant holds along any well-formed trace. -/
theorem inv4_run (events : List Event) :
    ∀ s, inv4 s → (∀ e ∈ events, sendStripNonemptyB e = true) →
      inv4 (events.foldl stepEvent s) := by
  induction events with
  | nil =>
    intro s h _
    exact h
  | cons e es ih =>
    intro s h hg
    exact ih _ (inv4_step s e (hg e (List.mem_cons_self e es)) h)
      (fun x hx => hg x (List.mem_cons_of_mem e hx))

/-! ## Claim theorems over the state machine -/

/-- Trace for the C4 counterexample: a phone prompt, a phone entry made of
separator characters only (stripping to the empty string) accepted through
the client fail-open fallback, a second phone prompt, and a second entry. -/
def claim4Trace : List Event :=
  [Event.botReply ("Please share your phone number"),
   Event.userSend ("()") env0,
   Event.botReply ("What is your phone number again?"),
   Event.userSend ("()") env0]

/-- C4 counterexample: finalization is not guarded to fire exactly once — on
`claim4Trace` the finalize path runs twice and the transcript holds two
account-details messages (and the account number is generated twice). -/
theorem claim4_counterexample :
    countAccountMsgs (runTrace claim4Trace).messages = 2 := by decide

/-- C4 amended: finalization fires at most once per session provided every
user send strips to a nonempty phone-candidate string — the effective guard
is the nonempty recorded phone, since re-entering `awaitingPhone` requires
an empty recorded phone; with an empty stripped phone accepted through the
fail-open fallback a second finalization is reachable. -/
theorem claim4_amended_single_finalization (trace : List Event)
    (hgood : ∀ e ∈ trace, sendStripNonemptyB e = true) :
    countAccountMsgs (runTrace trace).messages ≤ 1 := by
  refine (inv4_run trace initState ⟨?_, ?_, ?_⟩ hgood).2.2
  · intro hx
    exact absurd hx (by decide)
  · intro _
    rfl
  · decide

/-- Trace for the C4 witness: a normal phone flow. -/
def claim4WitnessTrace : List Event :=
  [Event.botReply ("Please share your phone number"),
   Event.userSend ("9876543210") env0]

/-- Witness for the C4 amended theorem on a normal phone flow. -/
theorem claim4_witness :
    (∀ e ∈ claim4WitnessTrace, sendStripNonemptyB e = true) ∧
    countAccountMsgs (runTrace claim4WitnessTrace).messages ≤ 1 :=
  ⟨by decide, claim4_amended_single_finalization claim4WitnessTrace (by decide)⟩

/-- Trace for the C3 counterexample: a user declares they are a student, the
assistant later asks about income. -/
def claim3Trace : List Event :=
  [Event.userSend ("I am a student") env0,
   Event.botReply ("Great! What is your monthly income?")]

/-- C3 counterexample: the client state machine has no student guard — a
session whose detected employment is `student` does transition to
`awaitingIncome` when an assistant reply contains an income trigger phrase.
The student skip lives only in the LLM system prompt. -/
theorem claim3_counterexample :
    (runTrace claim3Trace).employmentType = "student" ∧
    (runTrace claim3Trace).step = Step.awaitingIncome :=
  ⟨by decide, by decide⟩

/-- C3 amended: for every session — student sessions included — an assistant
reply containing an income trigger phrase (and no applicable email or phone
trigger, which would override it) moves the step to `awaitingIncome`: the
transition ignores `employmentType` entirely. -/
theorem claim3_amended_income_trigger (s : SessionState) (r : String)
    (hstu : s.employmentType = "student")
    (hinc : triggersAny INCOME_TRIGGER_PHRASES r = true)
    (hem : ¬(triggersAny EMAIL_TRIGGER_PHRASES r = true ∧ s.email = ""))
    (hph : ¬(triggersAny PHONE_TRIGGER_PHRASES r = true ∧ s.phone = "")) :
    (stepEvent s (Event.botReply r)).step = Step.awaitingIncome := by
  rw [show stepEvent s (Event.botReply r)
        = applyReplyTriggers (pushMsg s (botMsg r)) r from rfl,
      applyReplyTriggers_eq]
  rw [if_neg (show ¬(triggersAny PHONE_TRIGGER_PHRASES r = true
        ∧ (pushMsg s (botMsg r)).phone = "") from hph)]
  rw [if_neg (show ¬(triggersAny EMAIL_TRIGGER_PHRASES r = true
        ∧ (pushMsg s (botMsg r)).email = "") from hem)]
  rw [if_pos hinc]

/-- Witness for the C3 amended theorem at a concrete student session. -/
theorem claim3_witness :
    sStudent0.employmentType = "student" ∧
    triggersAny INCOME_TRIGGER_PHRASES ("What is your monthly income?") = true ∧
    (stepEvent sStudent0
      (Event.botReply ("What is your monthly income?"))).step = Step.awaitingIncome :=
  ⟨rfl, by decide,
    claim3_amended_income_trigger sStudent0 ("What is your monthly income?")
      rfl (by decide) (by decide) (by decide)⟩

/-- C6: in `awaitingIncome`, the input is stripped to digits and dots and
parsed; an unparsable input or a parsed value below 1000 is rejected with
the re-prompt message, leaving the step at `awaitingIncome` and
`monthlyIncome` unchanged and sending no scoring request; a value of at
least 1000 records `monthlyIncome`, reverts the step to `chat` and sends
exactly one risk-scoring request. -/
theorem claim6_income_input_handling (env : Env) (text : String) (s : SessionState)
    (hstep : s.step = Step.awaitingIncome) :
    (parseIncome text = none →
      (handleIncomeInput env text s).step = Step.awaitingIncome ∧
      (handleIncomeInput env text s).monthlyIncome = s.monthlyIncome ∧
      (handleIncomeInput env text s).messages = s.messages ++ [botMsg incomeErrText] ∧
      (handleIncomeInput env text s).riskCalls = s.riskCalls) ∧
    (∀ v : ℚ, parseIncome text = some v → v < 1000 →
      (handleIncomeInput env text s).step = Step.awaitingIncome ∧
      (handleIncomeInput env text s).monthlyIncome = s.monthlyIncome ∧
      (handleIncomeInput env text s).messages = s.messages ++ [botMsg incomeErrText] ∧
      (handleIncomeInput env text s).riskCalls = s.riskCalls) ∧
    (∀ v : ℚ, parseIncome text = some v → 1000 ≤ v →
      (handleIncomeInput env text s).monthlyIncome = some v ∧
      (handleIncomeInput env text s).step = Step.chat ∧
      (handleIncomeInput env text s).riskCalls
        = s.riskCalls ++ [riskEmployment s.employmentType s.employmentType]) := by
  refine ⟨?_, ?_, ?_⟩
  · intro hp
    unfold handleIncomeInput
    rw [hp]
    exact ⟨hstep, rfl, rfl, rfl⟩
  · intro v hp hv
    unfold handleIncomeInput
    rw [hp]
    dsimp only
    rw [if_pos (Or.inr hv)]
    exact ⟨hstep, rfl, rfl, rfl⟩
  · intro v hp hv
    unfold handleIncomeInput
    rw [hp]
    dsimp only
    have hnz : ¬(v = 0 ∨ v < 1000) := by
      push_neg
      refine ⟨?_, hv⟩
      intro hz
      rw [hz] at hv
      norm_num at hv
    rw [if_neg hnz]
    by_cases hr : env.riskOk = true
    · rw [if_pos hr]
      exact ⟨rfl, rfl, rfl⟩
    · rw [if_neg hr]
      exact ⟨rfl, rfl, rfl⟩

/-- Witness for C6 accepting a concrete 45000 entry. -/
theorem claim6_witness :
    parseIncome ("45000") = some 45000 ∧
    (handleIncomeInput env0 ("45000") sIncome0).monthlyIncome = some 45000 ∧
    (handleIncomeInput env0 ("45000") sIncome0).step = Step.chat :=
  ⟨by decide,
    ((claim6_income_input_handling env0 ("45000") sIncome0 rfl).2.2 45000
      (by decide) (by norm_num)).1,
    ((claim6_income_input_handling env0 ("45000") sIncome0 rfl).2.2 45000
      (by decide) (by norm_num)).2.1⟩

/-- The strings `detectEmployment` can produce, plus the empty string: the
only values `employmentType` ever holds. -/
def knownEmployments : List String :=
  ["", "freelancer", "salaried", "business", "student"]

/-- `detectEmployment` only produces known employment strings. -/
theorem detectEmployment_mem (t : String) : detectEmployment t ∈ knownEmployments := by
  unfold detectEmployment
  dsimp only
  split_ifs <;> decide

/-- For a known current employment, the string sent to the risk endpoint is
always a key of the coefficient table. -/
theorem riskEmployment_known (cur : String) (h : cur ∈ knownEmployments) :
    (employmentScore (lowerStr (riskEmployment cur cur))).isSome = true := by
  fin_cases h <;> decide

/-- Invariant behind the scoring-call claim: the employment field stays in
the known set and every logged risk request uses a table key. -/
def inv10 (s : SessionState) : Prop :=
  s.employmentType ∈ knownEmployments ∧
  ∀ e ∈ s.riskCalls, (employmentScore (lowerStr e)).isSome = true

/-- The routing block preserves the scoring-call invariant. -/
theorem inv10_route (env : Env) (t : String) (s2 : SessionState)
    (h : inv10 s2) : inv10 (routeUserText env t s2) := by
  unfold routeUserText
  cases hs : s2.step with
  | chat => exact h
  | done => exact h
  | awaitingIncome =>
    show inv10 (handleIncomeInput env t s2)
    obtain ⟨_, he, _, _, hrc⟩ := handleIncomeInput_parts env t s2
    refine ⟨he ▸ h.1, ?_⟩
    rcases hrc with h' | h'
    · rw [h']
      exact h.2
    · rw [h']
      intro e hme
      rcases List.mem_append.mp hme with hx | hx
      · exact h.2 e hx
      · rw [List.mem_singleton] at hx
        rw [hx]
        exact riskEmployment_known s2.employmentType h.1
  | awaitingEmail =>
    show inv10 (handleEmailInput env t s2)
    obtain ⟨_, he, _, _, hrc⟩ := handleEmailInput_parts env t s2
    exact ⟨he ▸ h.1, hrc ▸ h.2⟩
  | awaitingPhone =>
    show inv10 (handlePhoneInput env t s2)
    obtain ⟨he, hrc, _⟩ := handlePhoneInput_parts env t s2
    exact ⟨he ▸ h.1, hrc ▸ h.2⟩

/-- One event preserves the scoring-call invariant. -/
theorem inv10_step (s : SessionState) (e : Event) (h : inv10 s) :
    inv10 (stepEvent s e) := by
  cases e with
  | botReply r =>
    rw [show stepEvent s (Event.botReply r)
          = applyReplyTriggers (pushMsg s (botMsg r)) r from rfl,
        applyReplyTriggers_eq]
    exact h
  | faceResult succ message => exact h
  | fileUpload name => exact h
  | userSend text env =>
    by_cases ht : trimStr text = ""
    · simp only [stepEvent]
      rw [if_pos ht]
      exact h
    · simp only [stepEvent]
      rw [if_neg ht]
      apply inv10_route
      split_ifs with hd
      · exact ⟨detectEmployment_mem (trimStr text), h.2⟩
      · exact h

/-- The scoring-call invariant holds along any trace. -/
theorem inv10_run (events : List Event) :
    ∀ s, inv10 s → inv10 (events.foldl stepEvent s) := by
  induction events with
  | nil =>
    intro s h
    exact h
  | cons e es ih =>
    intro s h
    exact ih _ (inv10_step s e h)

/-- C10: when no employment has been detected the risk request substitutes
`"salaried"`, and along every session trace every risk-scoring request
initiated from the income flow carries an employment string found in the
coefficient table — the unknown-employment default `0.3` is never exercised
from that path. -/
theorem claim10_risk_calls_use_table :
    riskEmployment ("") ("") = "salaried" ∧
    ∀ (trace : List Event) (e : String), e ∈ (runTrace trace).riskCalls →
      (employmentScore (lowerStr e)).isSome = true := by
  refine ⟨by decide, ?_⟩
  intro trace e he
  refine (inv10_run trace initState ⟨by decide, ?_⟩).2 e he
  intro x hx
  exact absurd hx (List.not_mem_nil x)

/-- Trace for the C10 witness: an income prompt followed by a 45000 entry
with no employment detected, logging a `"salaried"` scoring request. -/
def claim10Trace : List Event :=
  [Event.botReply ("What is your monthly income?"),
   Event.userSend ("45000") env0]

/-- Witness for C10 at the concrete trace. -/
theorem claim10_witness :
    ("salaried" : String) ∈ (runTrace claim10Trace).riskCalls ∧
    (employmentScore (lowerStr ("salaried"))).isSome = true :=
  ⟨by decide, claim10_risk_calls_use_table.2 claim10Trace ("salaried") (by decide)⟩

end OnboardX
